import Mathlib

/-!
Verification of the habit/mood state engine of the AI-Habit-Coach
application: a shallow embedding of the data model and of the operations in
`src/context/AppContext.tsx`, `src/components/StatsCard.tsx`,
`src/components/AnalyticsChart.tsx`, `src/context/AuthContext.tsx`
(the `generateCoaching` fallback) and
`src/components/WebcamMoodDetector.tsx` (the `analyzeMood` classifier),
together with proofs about them.

Modelling conventions:
* JavaScript numbers are modelled exactly: integer counters as `Nat`,
  fractional quantities as `Rat`; for the facial-metric path, where a
  division by zero can produce `NaN`/`Infinity`, an explicit `JSNum` type
  mirrors the IEEE special values (rounding and overflow of finite values
  are not modelled).  `Math.round` is `jsRound` (floor of x + 1/2, ties
  toward positive infinity, as in JavaScript).
* Ambient effects are passed explicitly: `crypto.randomUUID()` and
  `new Date(...)` results become parameters (`id`, `createdAt`, `today`,
  the 7-day window), `Math.sqrt` becomes a function parameter of the
  keypoint analyser.
* Arrays become `List`s; `Array.prototype.sort` is stable in JavaScript, so
  it is modelled by the stable `List.mergeSort`.
-/

namespace HabitCoach

/-! ## Definitions -/

/-- The four mood labels (`MoodType` in the source). -/
inductive Mood
| Happy
| Stressed
| Tired
| Focused
deriving DecidableEq, Repr

/-- Habit frequency, `'daily' | 'weekly'`. -/
inductive Frequency
| daily
| weekly
deriving DecidableEq, Repr

/-- Provenance of a mood entry, `'manual' | 'webcam'`. -/
inductive MoodSource
| manual
| webcam
deriving DecidableEq, Repr

/-- The `Habit` interface of `AppContext.tsx`. -/
structure Habit where
  id : String
  title : String
  frequency : Frequency
  streak : Nat
  completedDates : List String
  createdAt : String
deriving DecidableEq, Repr

/-- The `MoodEntry` interface of `AppContext.tsx`. -/
structure MoodEntry where
  id : String
  date : String
  mood : Mood
  source : MoodSource
  note : Option String
deriving DecidableEq, Repr

/-- The `AppState` aggregate of `AppContext.tsx`. -/
structure AppState where
  habits : List Habit
  moodHistory : List MoodEntry
  userName : String
  apiKey : String
deriving DecidableEq, Repr

/-- `initialState` of `AppContext.tsx`. -/
def initialState : AppState :=
  { habits := [], moodHistory := [], userName := "User", apiKey := "" }

/-- `addHabit` of `AppContext.tsx`: appends a fresh habit with `streak = 0`
and `completedDates = []`.  The ambient `crypto.randomUUID()` and
`new Date().toISOString()` are passed in as `id` and `createdAt`. -/
def addHabit (s : AppState) (id title : String) (frequency : Frequency)
    (createdAt : String) : AppState :=
  { s with habits := s.habits ++
      [{ id := id, title := title, frequency := frequency, streak := 0,
         completedDates := [], createdAt := createdAt }] }

/-- The membership flip of `toggleHabitCompletion`: if `date` is already in
`completedDates` remove it (`filter(d => d !== date)`), otherwise append it
(`[...completedDates, date]`). -/
def toggleDates (dates : List String) (date : String) : List String :=
  if dates.contains date then dates.filter (fun d => d != date)
  else dates ++ [date]

/-- The per-habit update of `toggleHabitCompletion`: flip the date's
membership and recompute `streak`.  The source initialises `streak = 0` and,
when the new list is non-empty, overwrites it with
`newCompletedDates.length` (the explicit "placeholder: total completions"). -/
def toggleHabit (h : Habit) (date : String) : Habit :=
  let newCompletedDates := toggleDates h.completedDates date
  let streak := if newCompletedDates.length > 0 then newCompletedDates.length else 0
  { h with completedDates := newCompletedDates, streak := streak }

/-- `toggleHabitCompletion` of `AppContext.tsx`: find the habit by id
(`findIndex`; `-1`, i.e. `none`, returns the previous state unchanged) and
replace it at its index by the updated habit. -/
def toggleHabitCompletion (s : AppState) (id date : String) : AppState :=
  match s.habits.findIdx? (fun h => h.id == id) with
  | none => s
  | some i =>
      match s.habits[i]? with
      | none => s
      | some habit => { s with habits := s.habits.set i (toggleHabit habit date) }

/-- `deleteHabit` of `AppContext.tsx`. -/
def deleteHabit (s : AppState) (id : String) : AppState :=
  { s with habits := s.habits.filter (fun h => h.id != id) }

/-- `addMoodEntry` of `AppContext.tsx`: prepend the new entry (the ambient
`crypto.randomUUID()` is the `id` parameter). -/
def addMoodEntry (s : AppState) (id date : String) (mood : Mood)
    (source : MoodSource) (note : Option String) : AppState :=
  { s with moodHistory :=
      { id := id, date := date, mood := mood, source := source, note := note }
        :: s.moodHistory }

/-- The habit of the end-to-end scenario: "Drink water", daily. -/
def scenarioHabit : Habit :=
  { id := "uuid-1", title := "Drink water", frequency := Frequency.daily,
    streak := 0, completedDates := [], createdAt := "2026-10-12T00:00:00.000Z" }

/-- State after adding the scenario habit to the initial state. -/
def scenarioS1 : AppState :=
  addHabit initialState "uuid-1" "Drink water" Frequency.daily
    "2026-10-12T00:00:00.000Z"

/-- State after toggling the scenario habit for today. -/
def scenarioS2 : AppState := toggleHabitCompletion scenarioS1 "uuid-1" "2026-10-12"

/-- State after toggling the scenario habit for today twice. -/
def scenarioS3 : AppState := toggleHabitCompletion scenarioS2 "uuid-1" "2026-10-12"

/-- Every habit's `completedDates` holds each date at most once. -/
def NoDupDates (s : AppState) : Prop :=
  ∀ h ∈ s.habits, h.completedDates.Nodup

/-- `Math.round` of JavaScript on a non-negative value: floor of `x + 1/2`
(ties round toward positive infinity). -/
def jsRound (x : Rat) : Int := Int.floor (x + 1 / 2)

/-- The consistency computation of `StatsCard.tsx`: completions whose date
falls in the trailing 7-day window, over `habitCount * 7`, as a rounded
percentage; `0` when there are no habits.  The window list (`last7Days` in
the source, produced from the current date) is a parameter. -/
def consistency (habits : List Habit) (last7Days : List String) : Int :=
  let totalHabits : Nat := habits.length
  let totalPossible : Nat := totalHabits * 7
  let totalCompleted : Nat := (habits.map
    (fun h => (h.completedDates.filter (fun d => last7Days.contains d)).length)).sum
  if totalPossible > 0 then
    jsRound (((totalCompleted : Rat) / (totalPossible : Rat)) * 100)
  else 0

/-- A concrete habit for the consistency witness. -/
def consistencyHabit : Habit :=
  { id := "uuid-3", title := "Read", frequency := Frequency.daily, streak := 1,
    completedDates := ["2026-10-12"], createdAt := "2026-10-01T00:00:00.000Z" }

/-- A concrete 7-day window for the consistency witness. -/
def consistencyWindow : List String :=
  ["2026-10-12", "2026-10-11", "2026-10-10", "2026-10-09", "2026-10-08",
   "2026-10-07", "2026-10-06"]

/-- The fixed mood-to-number mapping of `AnalyticsChart.tsx`. -/
def moodValue : Mood → Nat
  | Mood.Happy => 100
  | Mood.Focused => 80
  | Mood.Tired => 40
  | Mood.Stressed => 20

/-- The entries of a given calendar day (`m.date.startsWith(dateStr)`). -/
def daysMoods (moodHistory : List MoodEntry) (dateStr : String) : List MoodEntry :=
  moodHistory.filter (fun m => m.date.startsWith dateStr)

/-- The per-day mood score: the average of the day's mapped mood values,
`null` (`none`) when the day has no entries. -/
def moodScoreOfDay (moodHistory : List MoodEntry) (dateStr : String) : Option Rat :=
  let dm := daysMoods moodHistory dateStr
  if dm.length > 0 then
    some ((dm.map (fun m => ((moodValue m.mood : Nat) : Rat))).sum
      / (((dm.length : Nat)) : Rat))
  else none

/-- The value plotted in the chart row: `moodScore ? Math.round(moodScore) :
null` — in JavaScript `0` is falsy, so a zero score would also plot as
`null`. -/
def chartMoodValue (moodHistory : List MoodEntry) (dateStr : String) : Option Int :=
  match moodScoreOfDay moodHistory dateStr with
  | some x => if x = 0 then none else some (jsRound x)
  | none => none

/-- Mood trend, `'improving' | 'declining' | 'stable'`. -/
inductive Trend
| improving
| declining
| stable
deriving DecidableEq, Repr

/-- Count of positive moods (`Happy` or `Focused`) in `analyzeMoodPattern`. -/
def positiveCount (moods : List Mood) : Nat :=
  (moods.filter (fun m => m == Mood.Happy || m == Mood.Focused)).length

/-- The trend component of `analyzeMoodPattern`: compare the positive-mood
counts of the first three and next three of the last seven entries. -/
def moodTrend (moodHistory : List MoodEntry) : Trend :=
  if moodHistory.length = 0 then Trend.stable
  else
    let last7 := moodHistory.take 7
    let recent := (last7.take 3).map (fun m => m.mood)
    let older := ((last7.drop 3).take 3).map (fun m => m.mood)
    if positiveCount recent > positiveCount older then Trend.improving
    else if positiveCount recent < positiveCount older then Trend.declining
    else Trend.stable

/-- The `CoachingResponse` shape; the fallback always fills all five fields. -/
structure CoachingResponse where
  focus : String
  improvement : String
  encouragement : String
  moodInsight : String
  actionItems : List String
deriving DecidableEq, Repr

/-- The Stressed template's `improvement` text. -/
def stressedImprovementText : String :=
  "Break your habits into smaller, 5-minute chunks. Start with the easiest one to build momentum without pressure."

/-- The Stressed template's `encouragement` text. -/
def stressedEncouragementText : String :=
  "It's completely okay to feel stressed. Remember, progress over perfection. You're doing better than you think."

/-- The 100%-completion override `improvement` text. -/
def perfectImprovementText : String :=
  "Perfect score today! Consider increasing the difficulty slightly or adding a complementary habit."

/-- The 100%-completion override `encouragement` text. -/
def perfectEncouragementText : String :=
  "Outstanding! You've completed everything. This consistency is building an incredible foundation."

/-- The mood-keyed template bundles of the fallback (`switch (recentMood)`);
`none` models the `'Neutral'` placeholder reaching the `default` case. -/
def moodTemplate : Option Mood → CoachingResponse
  | some Mood.Stressed =>
    { focus := "Today, prioritize self-care and stress management. Focus on completing just one key habit to avoid overwhelm.",
      improvement := stressedImprovementText,
      encouragement := stressedEncouragementText,
      moodInsight := "Stress often peaks when we try to do too much at once. Simplifying your approach can help.",
      actionItems := ["Take 5 deep breaths right now",
        "Complete your easiest habit first",
        "Schedule a 10-minute break for yourself"] }
  | some Mood.Tired =>
    { focus := "Listen to your body today. Focus on rest and choose only your most essential habit to maintain your streak.",
      improvement := "Consider moving your habit practice to when you have the most energy, typically morning or after rest.",
      encouragement := "Rest is productive too. Your body needs recovery to perform at its best. Tomorrow is a fresh start.",
      moodInsight := "Low energy might mean you need better sleep or nutrition. Your habits work best when you're well-rested.",
      actionItems := ["Drink a glass of water",
        "Do one habit in 2 minutes or less",
        "Plan an earlier bedtime tonight"] }
  | some Mood.Focused =>
    { focus := "You're in the zone! Leverage this focused energy to tackle your most challenging habit or add a new one.",
      improvement := "Use this productive state to batch similar habits together and create an optimized routine.",
      encouragement := "Your focus is a superpower! Ride this wave of productivity and see how much you can accomplish.",
      moodInsight := "Focused states are perfect for building new habits. Your brain is primed for learning and execution.",
      actionItems := ["Complete your hardest habit first",
        "Time-block your remaining habits",
        "Reflect on what's helping you focus"] }
  | some Mood.Happy =>
    { focus := "Spread your positive energy! Use this uplifted mood to strengthen your habits and inspire others.",
      improvement := "Reflect on what made you happy and see if you can turn it into a sustainable habit or routine.",
      encouragement := "Your positivity is contagious! You're proof that consistent habits lead to genuine happiness.",
      moodInsight := "Happiness and habit success often reinforce each other. You're in a positive cycle!",
      actionItems := ["Celebrate today's completed habits",
        "Share your progress with someone",
        "Set a stretch goal for tomorrow"] }
  | none =>
    { focus := "Stay consistent with your daily routine and maintain your momentum.",
      improvement := "Try to complete your habits earlier in the day to build a sense of accomplishment.",
      encouragement := "Every day is a chance to grow. You're building something meaningful, one habit at a time.",
      moodInsight := "Tracking your mood helps you understand what supports your habit success.",
      actionItems := ["Check off one habit right now",
        "Log your current mood",
        "Review your progress this week"] }

/-- The deterministic fallback path of `generateCoaching` (no usable API
credential): template by most recent mood, then completion-rate overrides,
then the mood-trend clause appended to `moodInsight`.  The ambient current
date is the `today` parameter. -/
def generateCoachingFallback (habits : List Habit) (moodHistory : List MoodEntry)
    (today : String) : CoachingResponse :=
  let recentMood := moodHistory.head?.map (fun m => m.mood)
  let trend := moodTrend moodHistory
  let completedToday : Nat :=
    (habits.filter (fun h => h.completedDates.contains today)).length
  let totalHabits : Nat := habits.length
  let completionRate : Rat :=
    if totalHabits > 0 then ((completedToday : Nat) : Rat) / ((totalHabits : Nat) : Rat)
    else 0
  let base := moodTemplate recentMood
  let r :=
    if completionRate = 1 ∧ totalHabits > 0 then
      { base with improvement := perfectImprovementText,
                  encouragement := perfectEncouragementText,
                  actionItems := base.actionItems ++ ["Reward yourself for 100% completion"] }
    else if completionRate < 0.3 ∧ totalHabits > 0 then
      { base with improvement := "Start with just one habit right now. Small wins create momentum for bigger achievements.",
                  actionItems := ["Pick your easiest habit and do it now",
                    "Set a 5-minute timer and start",
                    "Forgive yourself and move forward"] }
    else if completionRate ≥ 0.7 ∧ totalHabits > 0 then
      { base with encouragement := "Great job! You've completed " ++ toString completedToday
          ++ " out of " ++ toString totalHabits ++ " habits. You're on fire!" }
    else base
  { r with moodInsight := r.moodInsight ++
      (if trend = Trend.improving then
        " Your mood has been improving lately - keep up whatever you're doing!"
      else if trend = Trend.declining then
        " Your mood seems lower recently. Consider what might help you feel better."
      else "") }

/-- A Stressed mood entry for the coaching witness. -/
def stressedEntry : MoodEntry :=
  { id := "m1", date := "2026-10-12T08:00:00.000Z", mood := Mood.Stressed,
    source := MoodSource.manual, note := none }

/-- A JavaScript number as the metric pipeline sees it: an exact rational,
or one of the IEEE special values that division by zero produces.  Rounding
and overflow of finite values are not modelled. -/
inductive JSNum
| num (q : Rat)
| inf
| ninf
| nan
deriving DecidableEq, Repr

/-- JavaScript `<`: any comparison with `NaN` is false. -/
def JSNum.lt : JSNum → JSNum → Bool
  | JSNum.nan, _ => false
  | _, JSNum.nan => false
  | JSNum.num a, JSNum.num b => decide (a < b)
  | JSNum.num _, JSNum.inf => true
  | JSNum.num _, JSNum.ninf => false
  | JSNum.inf, _ => false
  | JSNum.ninf, JSNum.ninf => false
  | JSNum.ninf, _ => true

/-- JavaScript `<=`: any comparison with `NaN` is false. -/
def JSNum.le : JSNum → JSNum → Bool
  | JSNum.nan, _ => false
  | _, JSNum.nan => false
  | JSNum.num a, JSNum.num b => decide (a ≤ b)
  | JSNum.num _, JSNum.inf => true
  | JSNum.num _, JSNum.ninf => false
  | JSNum.inf, JSNum.inf => true
  | JSNum.inf, _ => false
  | JSNum.ninf, _ => true

/-- JavaScript `+` on the modelled values. -/
def JSNum.add : JSNum → JSNum → JSNum
  | JSNum.nan, _ => JSNum.nan
  | _, JSNum.nan => JSNum.nan
  | JSNum.num a, JSNum.num b => JSNum.num (a + b)
  | JSNum.inf, JSNum.ninf => JSNum.nan
  | JSNum.ninf, JSNum.inf => JSNum.nan
  | JSNum.inf, _ => JSNum.inf
  | _, JSNum.inf => JSNum.inf
  | JSNum.ninf, _ => JSNum.ninf
  | _, JSNum.ninf => JSNum.ninf

/-- JavaScript `/` on the modelled values: a zero denominator yields
`Infinity`, `-Infinity` or `NaN` exactly as in IEEE arithmetic. -/
def JSNum.div : JSNum → JSNum → JSNum
  | JSNum.nan, _ => JSNum.nan
  | _, JSNum.nan => JSNum.nan
  | JSNum.num a, JSNum.num b =>
      if b = 0 then
        if a = 0 then JSNum.nan
        else if 0 < a then JSNum.inf else JSNum.ninf
      else JSNum.num (a / b)
  | JSNum.num _, JSNum.inf => JSNum.num 0
  | JSNum.num _, JSNum.ninf => JSNum.num 0
  | JSNum.inf, JSNum.num b => if b < 0 then JSNum.ninf else JSNum.inf
  | JSNum.ninf, JSNum.num b => if b < 0 then JSNum.inf else JSNum.ninf
  | JSNum.inf, _ => JSNum.nan
  | JSNum.ninf, _ => JSNum.nan

/-- A facial keypoint; only the planar coordinates are used by
`analyzeMood`.  Coordinates are finite numbers. -/
structure Keypoint where
  x : Rat
  y : Rat
deriving DecidableEq, Repr

/-- `getKeypoint`: index guarded by the array length, `null` out of range
(a `Nat` index is never negative). -/
def getKeypoint (keypoints : List Keypoint) (index : Nat) : Option Keypoint :=
  if index < keypoints.length then keypoints[index]? else none

/-- `distance`: Euclidean distance between two keypoints.  `Math.sqrt` is
the `sqrtFn` parameter; its argument, a sum of squares of finite
coordinates, is an exact non-negative rational. -/
def distance (sqrtFn : Rat → JSNum) (p1 p2 : Keypoint) : JSNum :=
  sqrtFn ((p1.x - p2.x) ^ 2 + (p1.y - p2.y) ^ 2)

/-- The five facial metrics computed by `analyzeMood`. -/
structure Metrics where
  smileRatio : JSNum
  mouthOpenRatio : JSNum
  avgEAR : JSNum
  browRatio : JSNum
  mouthCurvature : JSNum
deriving DecidableEq, Repr

/-- Tired scoring: graduated bands on the eye-aspect ratio. -/
def tiredScore (m : Metrics) : Nat :=
  if JSNum.lt m.avgEAR (JSNum.num 0.18) then 5
  else if JSNum.lt m.avgEAR (JSNum.num 0.22) then 3
  else if JSNum.lt m.avgEAR (JSNum.num 0.25) then 1
  else 0

/-- Stressed scoring: frown-curvature band, plus lowered-brow band, plus the
narrow-eyes-with-lowered-brows combination. -/
def stressedScore (m : Metrics) : Nat :=
  let curvaturePart :=
    if JSNum.lt m.mouthCurvature (JSNum.num (-8)) then 5
    else if JSNum.lt m.mouthCurvature (JSNum.num (-5)) then 4
    else if JSNum.lt m.mouthCurvature (JSNum.num (-3)) then 3
    else if JSNum.lt m.mouthCurvature (JSNum.num (-1.5)) then 2
    else if JSNum.lt m.mouthCurvature (JSNum.num (-0.5)) then 1
    else 0
  let browPart :=
    if JSNum.lt m.browRatio (JSNum.num 0.12) then 3
    else if JSNum.lt m.browRatio (JSNum.num 0.14) then 2
    else if JSNum.lt m.browRatio (JSNum.num 0.16) then 1
    else 0
  let comboPart :=
    if JSNum.lt m.avgEAR (JSNum.num 0.25) && JSNum.lt m.browRatio (JSNum.num 0.15)
    then 2 else 0
  curvaturePart + browPart + comboPart

/-- Happy scoring: bands need both raised corners and a wide smile; a frown
(negative curvature) subtracts 2, floored at zero (`Math.max(0, s - 2)` is
truncated subtraction on `Nat`). -/
def happyScore (m : Metrics) : Nat :=
  let base :=
    if JSNum.lt (JSNum.num 3.0) m.mouthCurvature
        && JSNum.lt (JSNum.num 0.45) m.smileRatio then 5
    else if JSNum.lt (JSNum.num 2.5) m.mouthCurvature
        && JSNum.lt (JSNum.num 0.42) m.smileRatio then 4
    else if JSNum.lt (JSNum.num 2.0) m.mouthCurvature
        && JSNum.lt (JSNum.num 0.40) m.smileRatio then 3
    else if JSNum.lt (JSNum.num 1.5) m.mouthCurvature
        && JSNum.lt (JSNum.num 0.38) m.smileRatio then 2
    else if JSNum.lt (JSNum.num 1.0) m.mouthCurvature
        && JSNum.lt (JSNum.num 0.36) m.smileRatio then 1
    else 0
  if JSNum.lt m.mouthCurvature (JSNum.num 0) then base - 2 else base

/-- Focused scoring: neutral bands on curvature, eye-aspect ratio and brow
ratio. -/
def focusedScore (m : Metrics) : Nat :=
  let isNeutralMouth := JSNum.le (JSNum.num (-1.0)) m.mouthCurvature
    && JSNum.le m.mouthCurvature (JSNum.num 1.5)
  let isNormalEyes := JSNum.le (JSNum.num 0.25) m.avgEAR
    && JSNum.le m.avgEAR (JSNum.num 0.32)
  let isNormalBrows := JSNum.le (JSNum.num 0.16) m.browRatio
    && JSNum.le m.browRatio (JSNum.num 0.22)
  if isNeutralMouth && isNormalEyes && isNormalBrows then 4
  else if isNeutralMouth && isNormalEyes then 2
  else if isNormalEyes && JSNum.le (JSNum.num (-1.5)) m.mouthCurvature
      && JSNum.le m.mouthCurvature (JSNum.num 2.0) then 1
  else 0

/-- One step of a stable descending insertion sort: the inserted element
goes before the first element whose score it reaches, so an element earlier
in the original order stays before later elements with equal score. -/
def insertScore (a : Mood × Nat) : List (Mood × Nat) → List (Mood × Nat)
  | [] => [a]
  | b :: t => if a.2 ≥ b.2 then a :: b :: t else b :: insertScore a t

/-- The scores array sorted by `(a, b) => b.score - a.score`:
`Array.prototype.sort` is stable, so this is the stable descending sort of
`[Tired, Stressed, Happy, Focused]` by score. -/
def sortedScores (m : Metrics) : List (Mood × Nat) :=
  [(Mood.Tired, tiredScore m), (Mood.Stressed, stressedScore m),
   (Mood.Happy, happyScore m), (Mood.Focused, focusedScore m)].foldr insertScore []

/-- The selection and tie-break policy on the sorted scores: a zero top
score or a low margin falls back to Focused. -/
def classifyScores : List (Mood × Nat) → Mood
  | top :: second :: _ =>
      if top.2 = 0 then Mood.Focused
      else if 3 ≤ top.2 ∧ second.2 + 2 ≤ top.2 then top.1
      else if 2 ≤ top.2 ∧ second.2 + 1 ≤ top.2 then top.1
      else Mood.Focused
  | _ => Mood.Focused

/-- The scoring-and-selection part of `analyzeMood`, as a function of the
extracted metrics. -/
def classifyMetrics (m : Metrics) : Mood := classifyScores (sortedScores m)

/-- The metric formulas of `analyzeMood` over the fifteen landmarks they
use: the distance ratios, the averaged eye-aspect ratio, the brow ratio
against the left-eye centre, and the mouth curvature. -/
def metricsOfPoints (sqrtFn : Rat → JSNum)
    (leftEyeTop leftEyeBottom leftEyeLeft leftEyeRight
     rightEyeTop rightEyeBottom rightEyeLeft rightEyeRight
     mouthLeft mouthRight mouthTop mouthBottom
     faceLeft faceRight leftBrow : Keypoint) : Metrics :=
  let mouthWidth := distance sqrtFn mouthLeft mouthRight
  let mouthHeight := distance sqrtFn mouthTop mouthBottom
  let faceWidth := distance sqrtFn faceLeft faceRight
  let leftEyeWidth := distance sqrtFn leftEyeLeft leftEyeRight
  let leftEyeHeight := distance sqrtFn leftEyeTop leftEyeBottom
  let rightEyeWidth := distance sqrtFn rightEyeLeft rightEyeRight
  let rightEyeHeight := distance sqrtFn rightEyeTop rightEyeBottom
  let leftEyeCenter : Keypoint :=
    { x := (leftEyeLeft.x + leftEyeRight.x) / 2,
      y := (leftEyeLeft.y + leftEyeRight.y) / 2 }
  let browDist := distance sqrtFn leftBrow leftEyeCenter
  let mouthCenterY := (mouthTop.y + mouthBottom.y) / 2
  let mouthCornerAvgY := (mouthLeft.y + mouthRight.y) / 2
  { smileRatio := JSNum.div mouthWidth faceWidth,
    mouthOpenRatio := JSNum.div mouthHeight mouthWidth,
    avgEAR := JSNum.div
      (JSNum.add (JSNum.div leftEyeHeight leftEyeWidth)
        (JSNum.div rightEyeHeight rightEyeWidth)) (JSNum.num 2),
    browRatio := JSNum.div browDist faceWidth,
    mouthCurvature := JSNum.num (mouthCornerAvgY - mouthCenterY) }

/-- The metric extraction of `analyzeMood`: the sixteen named landmarks,
`none` when any is missing (which `analyzeMood` maps to Focused), otherwise
the metric formulas.  `rightBrow` is fetched and null-checked by the source
but unused in the formulas. -/
def computeMetrics (sqrtFn : Rat → JSNum) (keypoints : List Keypoint) :
    Option Metrics :=
  match getKeypoint keypoints 159, getKeypoint keypoints 145,
      getKeypoint keypoints 33, getKeypoint keypoints 133,
      getKeypoint keypoints 386, getKeypoint keypoints 374,
      getKeypoint keypoints 362, getKeypoint keypoints 263,
      getKeypoint keypoints 61, getKeypoint keypoints 291,
      getKeypoint keypoints 13, getKeypoint keypoints 14,
      getKeypoint keypoints 234, getKeypoint keypoints 454,
      getKeypoint keypoints 70, getKeypoint keypoints 300 with
  | some leftEyeTop, some leftEyeBottom, some leftEyeLeft, some leftEyeRight,
    some rightEyeTop, some rightEyeBottom, some rightEyeLeft, some rightEyeRight,
    some mouthLeft, some mouthRight, some mouthTop, some mouthBottom,
    some faceLeft, some faceRight, some leftBrow, some _rightBrow =>
      some (metricsOfPoints sqrtFn leftEyeTop leftEyeBottom leftEyeLeft leftEyeRight
        rightEyeTop rightEyeBottom rightEyeLeft rightEyeRight
        mouthLeft mouthRight mouthTop mouthBottom faceLeft faceRight leftBrow)
  | _, _, _, _, _, _, _, _, _, _, _, _, _, _, _, _ => none

/-- `analyzeMood` of `WebcamMoodDetector.tsx`: Focused for fewer than 468
keypoints or any missing landmark, otherwise the weighted-score
classification of the extracted metrics. -/
def analyzeMood (sqrtFn : Rat → JSNum) (keypoints : List Keypoint) : Mood :=
  if keypoints.length < 468 then Mood.Focused
  else
    match computeMetrics sqrtFn keypoints with
    | none => Mood.Focused
    | some m => classifyMetrics m

/-- A placeholder square root for concrete inputs whose distances are all
zero: it agrees with `Math.sqrt` at 0. -/
def sqrtId : Rat → JSNum := fun q => JSNum.num q

/-- 468 coincident keypoints: every landmark pair coincides, so face width,
mouth width and eye widths are all zero and every ratio divides 0 by 0. -/
def degenerateKeypoints : List Keypoint := List.replicate 468 { x := 0, y := 0 }

/-- The metrics of the degenerate input: every ratio is `NaN`, the curvature
is 0. -/
def nanMetrics : Metrics :=
  { smileRatio := JSNum.nan, mouthOpenRatio := JSNum.nan, avgEAR := JSNum.nan,
    browRatio := JSNum.nan, mouthCurvature := JSNum.num 0 }

/-- A metrics vector realising a top score of exactly 2 (Happy) and a
runner-up of exactly 1 (Tired): slightly narrowed eyes, a mild smile,
neutral brows. -/
def marginMetrics : Metrics :=
  { smileRatio := JSNum.num 0.39, mouthOpenRatio := JSNum.num 0,
    avgEAR := JSNum.num 0.23, browRatio := JSNum.num 0.2,
    mouthCurvature := JSNum.num 1.8 }

/-! ## Theorems -/

theorem toggleHabit_id (h : Habit) (date : String) :
    (toggleHabit h date).id = h.id := rfl

theorem toggleHabit_streak_eq_length (h : Habit) (date : String) :
    (toggleHabit h date).streak = (toggleHabit h date).completedDates.length := by
  simp only [toggleHabit]
  split
  · rfl
  · omega

/-- Membership in the toggled date list: the toggled date's membership is
negated, every other date's membership is unchanged. -/
theorem mem_toggleDates (dates : List String) (date x : String) :
    x ∈ toggleDates dates date ↔
      (if x = date then date ∉ dates else x ∈ dates) := by
  unfold toggleDates
  by_cases hc : date ∈ dates
  · rw [if_pos (by simpa using hc)]
    by_cases hx : x = date
    · subst hx
      simp [List.mem_filter, hc]
    · simp [List.mem_filter, hx]
  · rw [if_neg (by simpa using hc)]
    by_cases hx : x = date
    · subst hx
      simp [hc]
    · simp [hx]

/-- Toggling the same date twice restores membership of every date. -/
theorem mem_toggleDates_toggleDates (dates : List String) (date x : String) :
    x ∈ toggleDates (toggleDates dates date) date ↔ x ∈ dates := by
  rw [mem_toggleDates, mem_toggleDates]
  by_cases hx : x = date
  · subst hx
    simp only [if_pos rfl]
    rw [mem_toggleDates]
    simp
  · simp only [if_neg hx]
    rw [mem_toggleDates]
    simp [if_neg hx]

theorem toggleHabitCompletion_eq_set (s : AppState) (id date : String)
    (i : Nat) (h : Habit)
    (hfind : s.habits.findIdx? (fun x => x.id == id) = some i)
    (hget : s.habits[i]? = some h) :
    toggleHabitCompletion s id date =
      { s with habits := s.habits.set i (toggleHabit h date) } := by
  unfold toggleHabitCompletion
  simp only [hfind, hget]

theorem toggleHabitCompletion_of_findIdx_none (s : AppState) (id date : String)
    (hfind : s.habits.findIdx? (fun x => x.id == id) = none) :
    toggleHabitCompletion s id date = s := by
  unfold toggleHabitCompletion
  rw [hfind]

/-- Replacing an element by one with the same predicate value does not move
the first index satisfying the predicate. -/
theorem findIdx?_set_same {α : Type} (l : List α) (p : α → Bool) (i : Nat)
    (x y : α) (hy : l[i]? = some y) (hp : p x = p y) :
    (l.set i x).findIdx? p = l.findIdx? p := by
  have hmap : (l.set i x).map p = l.map p := by
    apply List.ext_getElem?
    intro n
    rw [List.map_set, List.getElem?_set']
    by_cases hn : i = n
    · subst hn
      simp [List.getElem?_map, hy, hp]
    · simp [hn]
  calc (l.set i x).findIdx? p
      = ((l.set i x).map p).findIdx? (fun b => b) := by rw [List.findIdx?_map]; rfl
    _ = (l.map p).findIdx? (fun b => b) := by rw [hmap]
    _ = l.findIdx? p := by rw [List.findIdx?_map]; rfl

/-- A toggle does not change which index `findIndex` locates for the same id. -/
theorem findIdx?_toggleHabitCompletion (s : AppState) (id date : String) :
    (toggleHabitCompletion s id date).habits.findIdx? (fun x => x.id == id)
      = s.habits.findIdx? (fun x => x.id == id) := by
  match hfind : s.habits.findIdx? (fun x => x.id == id) with
  | none => rw [toggleHabitCompletion_of_findIdx_none s id date hfind, hfind]
  | some i =>
      have hi : i < s.habits.length :=
        (List.findIdx?_eq_some_iff_findIdx_eq.mp hfind).1
      have hget : s.habits[i]? = some (s.habits.get ⟨i, hi⟩) :=
        List.getElem?_eq_getElem hi
      rw [toggleHabitCompletion_eq_set s id date i _ hfind hget]
      show (s.habits.set i _).findIdx? _ = _
      rw [findIdx?_set_same _ _ i _ _ hget (by rw [toggleHabit_id])]

/-- Double toggle of the same id and date rewrites the habit list once, with
the habit toggled twice. -/
theorem toggle_toggle_eq (s : AppState) (id date : String) (j : Nat)
    (hj : j < s.habits.length)
    (hfind : s.habits.findIdx? (fun x => x.id == id) = some j) :
    toggleHabitCompletion (toggleHabitCompletion s id date) id date =
      { s with habits :=
          s.habits.set j (toggleHabit (toggleHabit (s.habits.get ⟨j, hj⟩) date) date) } := by
  have hget : s.habits[j]? = some (s.habits.get ⟨j, hj⟩) := List.getElem?_eq_getElem hj
  have e1 := toggleHabitCompletion_eq_set s id date j _ hfind hget
  have hfind2 : (toggleHabitCompletion s id date).habits.findIdx?
      (fun x => x.id == id) = some j := by
    rw [findIdx?_toggleHabitCompletion]
    exact hfind
  have hget2 : (toggleHabitCompletion s id date).habits[j]?
      = some (toggleHabit (s.habits.get ⟨j, hj⟩) date) := by
    rw [e1]
    exact List.getElem?_set_self hj
  have e2 := toggleHabitCompletion_eq_set _ id date j _ hfind2 hget2
  rw [e2, e1]
  simp [List.set_set]

/-- C3: for every habit present in the state (at any position `i`) and every
date string, toggling completion twice with the same id and date returns the
habit's `completedDates` to its original membership. -/
theorem toggle_twice_restores_completedDates (s : AppState) (id date : String)
    (i : Nat) (h h' : Habit) (hs : s.habits[i]? = some h)
    (hs' : (toggleHabitCompletion (toggleHabitCompletion s id date) id date).habits[i]?
      = some h') :
    ∀ x, x ∈ h'.completedDates ↔ x ∈ h.completedDates := by
  match hfind : s.habits.findIdx? (fun x => x.id == id) with
  | none =>
      rw [toggleHabitCompletion_of_findIdx_none _ _ _
            (by rw [findIdx?_toggleHabitCompletion]; exact hfind),
          toggleHabitCompletion_of_findIdx_none _ _ _ hfind, hs] at hs'
      obtain rfl : h = h' := by injection hs'
      exact fun x => Iff.rfl
  | some j =>
      have hj : j < s.habits.length :=
        (List.findIdx?_eq_some_iff_findIdx_eq.mp hfind).1
      have hhabits :
          (toggleHabitCompletion (toggleHabitCompletion s id date) id date).habits
            = s.habits.set j
                (toggleHabit (toggleHabit (s.habits.get ⟨j, hj⟩) date) date) := by
        rw [toggle_toggle_eq s id date j hj hfind]
      rw [hhabits] at hs'
      by_cases hij : j = i
      · subst hij
        rw [List.getElem?_set_self hj] at hs'
        obtain rfl : toggleHabit (toggleHabit (s.habits.get ⟨j, hj⟩) date) date = h' := by
          injection hs'
        have hh : s.habits.get ⟨j, hj⟩ = h := by
          rw [List.getElem?_eq_getElem hj] at hs
          injection hs
        rw [hh]
        intro x
        exact mem_toggleDates_toggleDates h.completedDates date x
      · rw [List.getElem?_set_ne hij, hs] at hs'
        obtain rfl : h = h' := by injection hs'
        exact fun x => Iff.rfl

/-- Witness for C3 at a concrete state: the scenario habit's completed dates
return to their original membership after two toggles. -/
theorem toggle_twice_restores_completedDates_witness :
    "2026-10-12" ∈ (toggleHabit (toggleHabit scenarioHabit "2026-10-12")
        "2026-10-12").completedDates
      ↔ "2026-10-12" ∈ scenarioHabit.completedDates :=
  toggle_twice_restores_completedDates scenarioS1 "uuid-1" "2026-10-12" 0
    scenarioHabit (toggleHabit (toggleHabit scenarioHabit "2026-10-12") "2026-10-12")
    rfl rfl "2026-10-12"

/-- C2: after any toggle, the updated habit's `streak` equals the total count
of its `completedDates` (the placeholder total-count formula); and the
end-to-end scenario: a freshly added habit has `streak = 0` and no completed
dates, one toggle of today yields `streak = 1`, a second toggle yields
`streak = 0`. -/
theorem streak_is_total_count :
    (∀ (s : AppState) (id date : String) (i : Nat) (h : Habit),
        s.habits.findIdx? (fun x => x.id == id) = some i →
        s.habits[i]? = some h →
          (toggleHabitCompletion s id date).habits[i]? = some (toggleHabit h date) ∧
          (toggleHabit h date).streak = (toggleHabit h date).completedDates.length) ∧
    scenarioS1.habits.map (fun h => (h.streak, h.completedDates)) = [(0, [])] ∧
    scenarioS2.habits.map (fun h => (h.streak, h.completedDates))
      = [(1, ["2026-10-12"])] ∧
    scenarioS3.habits.map (fun h => (h.streak, h.completedDates)) = [(0, [])] := by
  refine ⟨?_, rfl, rfl, rfl⟩
  intro s id date i h hfind hget
  refine ⟨?_, toggleHabit_streak_eq_length h date⟩
  rw [toggleHabitCompletion_eq_set s id date i h hfind hget]
  have hi : i < s.habits.length :=
    (List.findIdx?_eq_some_iff_findIdx_eq.mp hfind).1
  exact List.getElem?_set_self hi

/-- Witness for C2 at a concrete state: toggling the freshly added scenario
habit updates it in place, streak equal to the completed-date count. -/
theorem streak_is_total_count_witness :
    (toggleHabitCompletion scenarioS1 "uuid-1" "2026-10-12").habits[0]?
        = some (toggleHabit scenarioHabit "2026-10-12") ∧
      (toggleHabit scenarioHabit "2026-10-12").streak
        = (toggleHabit scenarioHabit "2026-10-12").completedDates.length :=
  streak_is_total_count.1 scenarioS1 "uuid-1" "2026-10-12" 0 scenarioHabit rfl rfl

/-- C8: toggling with a habit id that matches no habit in the state is a
no-op, the state is returned unchanged. -/
theorem toggle_unknown_id_noop (s : AppState) (id date : String)
    (hno : ∀ h ∈ s.habits, h.id ≠ id) :
    toggleHabitCompletion s id date = s := by
  apply toggleHabitCompletion_of_findIdx_none
  rw [List.findIdx?_eq_none_iff]
  intro x hx
  simpa using hno x hx

/-- Witness for C8: toggling an id unknown to the scenario state changes
nothing. -/
theorem toggle_unknown_id_noop_witness :
    toggleHabitCompletion scenarioS1 "uuid-2" "2026-10-12" = scenarioS1 :=
  toggle_unknown_id_noop scenarioS1 "uuid-2" "2026-10-12" (by decide)

theorem toggleDates_nodup {dates : List String} {date : String}
    (hd : dates.Nodup) : (toggleDates dates date).Nodup := by
  unfold toggleDates
  by_cases hc : date ∈ dates
  · rw [if_pos (by simpa using hc)]
    exact hd.filter _
  · rw [if_neg (by simpa using hc)]
    simp [List.nodup_append, hd, hc]

/-- C9: every store operation preserves the no-duplicate-dates invariant. -/
theorem noDupDates_invariant :
    (∀ (s : AppState) (id title : String) (freq : Frequency) (createdAt : String),
        NoDupDates s → NoDupDates (addHabit s id title freq createdAt)) ∧
    (∀ (s : AppState) (id date : String),
        NoDupDates s → NoDupDates (toggleHabitCompletion s id date)) ∧
    (∀ (s : AppState) (id : String),
        NoDupDates s → NoDupDates (deleteHabit s id)) ∧
    (∀ (s : AppState) (id date : String) (mood : Mood) (src : MoodSource)
        (note : Option String),
        NoDupDates s → NoDupDates (addMoodEntry s id date mood src note)) := by
  refine ⟨?_, ?_, ?_, ?_⟩
  · intro s id title freq createdAt hs h hmem
    rcases List.mem_append.mp hmem with hmem | hmem
    · exact hs h hmem
    · rw [List.mem_singleton.mp hmem]
      exact List.nodup_nil
  · intro s id date hs
    match hfind : s.habits.findIdx? (fun x => x.id == id) with
    | none =>
        rw [toggleHabitCompletion_of_findIdx_none s id date hfind]
        exact hs
    | some i =>
        have hi : i < s.habits.length :=
          (List.findIdx?_eq_some_iff_findIdx_eq.mp hfind).1
        rw [toggleHabitCompletion_eq_set s id date i (s.habits.get ⟨i, hi⟩) hfind
          (List.getElem?_eq_getElem hi)]
        intro h hmem
        rcases List.mem_or_eq_of_mem_set hmem with hmem | rfl
        · exact hs h hmem
        · exact toggleDates_nodup (hs _ (List.get_mem s.habits i hi))
  · intro s id hs h hmem
    exact hs h (List.mem_of_mem_filter hmem)
  · intro s id date mood src note hs
    exact hs

/-- Witness for C9: the toggled scenario state still has no duplicate dates. -/
theorem noDupDates_invariant_witness : NoDupDates scenarioS2 :=
  noDupDates_invariant.2.1 scenarioS1 "uuid-1" "2026-10-12"
    (by unfold NoDupDates; decide)

/-- C4: with duplicate-free `completedDates` and the 7-entry window, the
consistency score is an integer in `[0, 100]`, and it is `0` for an empty
habit collection. -/
theorem consistency_bounds (habits : List Habit) (window : List String)
    (hw : window.length = 7)
    (hnd : ∀ h ∈ habits, h.completedDates.Nodup) :
    0 ≤ consistency habits window ∧ consistency habits window ≤ 100 ∧
      (habits = [] → consistency habits window = 0) := by
  by_cases hh : habits = []
  · subst hh
    have h0 : consistency [] window = 0 := rfl
    exact ⟨h0 ▸ le_refl 0, by rw [h0]; norm_num, fun _ => h0⟩
  · have hn : 0 < habits.length := List.length_pos.mpr hh
    have hcount : ∀ h ∈ habits,
        (h.completedDates.filter (fun d => window.contains d)).length ≤ 7 := by
      intro h hm
      have hnd2 : (h.completedDates.filter (fun d => window.contains d)).Nodup :=
        (hnd h hm).filter _
      have hsub : h.completedDates.filter (fun d => window.contains d) ⊆ window := by
        intro x hx
        have hx2 := (List.mem_filter.mp hx).2
        simpa using hx2
      calc (h.completedDates.filter (fun d => window.contains d)).length
          ≤ window.length := (List.subperm_of_subset hnd2 hsub).length_le
        _ = 7 := hw
    have hsum : (habits.map
        (fun h => (h.completedDates.filter (fun d => window.contains d)).length)).sum
          ≤ habits.length * 7 := by
      have := List.sum_le_card_nsmul (habits.map
        (fun h => (h.completedDates.filter (fun d => window.contains d)).length)) 7 ?_
      · simpa [Nat.smul_one_eq_cast] using this
      · intro x hx
        rcases List.mem_map.mp hx with ⟨h, hm, rfl⟩
        exact hcount h hm
    have hposs : 0 < habits.length * 7 := by positivity
    have hcons : consistency habits window =
        jsRound (((((habits.map (fun h =>
          (h.completedDates.filter (fun d => window.contains d)).length)).sum : Nat) : Rat)
            / (((habits.length * 7 : Nat)) : Rat)) * 100) := by
      simp only [consistency]
      rw [if_pos hposs]
    obtain ⟨c, hceq⟩ : ∃ c : Nat, (habits.map (fun h =>
        (h.completedDates.filter (fun d => window.contains d)).length)).sum = c :=
      ⟨_, rfl⟩
    obtain ⟨p, hpeq⟩ : ∃ p : Nat, habits.length * 7 = p := ⟨_, rfl⟩
    rw [hceq, hpeq] at hcons
    rw [hceq] at hsum
    rw [hpeq] at hsum hposs
    have hp : (0 : Rat) < (p : Rat) := by exact_mod_cast hposs
    have hx0 : (0 : Rat) ≤ (c : Rat) / (p : Rat) * 100 := by positivity
    have hx100 : (c : Rat) / (p : Rat) * 100 ≤ 100 := by
      have h1 : (c : Rat) / (p : Rat) ≤ 1 := by
        rw [div_le_one hp]
        exact_mod_cast hsum
      calc (c : Rat) / (p : Rat) * 100 ≤ 1 * 100 :=
            mul_le_mul_of_nonneg_right h1 (by norm_num)
        _ = 100 := by norm_num
    refine ⟨?_, ?_, fun habs => absurd habs hh⟩
    · rw [hcons]
      unfold jsRound
      exact Int.floor_nonneg.mpr (by linarith)
    · rw [hcons]
      unfold jsRound
      have hlt : Int.floor ((c : Rat) / (p : Rat) * 100 + 1 / 2) < 101 := by
        rw [Int.floor_lt]
        push_cast
        linarith
      omega

/-- Witness for C4 at a concrete habit collection and window. -/
theorem consistency_bounds_witness :
    0 ≤ consistency [consistencyHabit] consistencyWindow ∧
      consistency [consistencyHabit] consistencyWindow ≤ 100 ∧
      ([consistencyHabit] = ([] : List Habit) →
        consistency [consistencyHabit] consistencyWindow = 0) :=
  consistency_bounds [consistencyHabit] consistencyWindow rfl (by decide)

theorem moodValue_ge_20 (m : Mood) : 20 ≤ moodValue m := by
  cases m <;> decide

/-- A non-empty day's mood score is at least 20 (hence nonzero). -/
theorem moodScoreOfDay_pos (hist : List MoodEntry) (d : String) (x : Rat)
    (hx : moodScoreOfDay hist d = some x) : 20 ≤ x := by
  simp only [moodScoreOfDay] at hx
  by_cases hl : (daysMoods hist d).length > 0
  · rw [if_pos hl] at hx
    obtain rfl : ((daysMoods hist d).map
        (fun m => ((moodValue m.mood : Nat) : Rat))).sum
          / ((((daysMoods hist d).length : Nat)) : Rat) = x := by injection hx
    obtain ⟨n, hn⟩ : ∃ n : Nat, (daysMoods hist d).length = n := ⟨_, rfl⟩
    have hsum : ((n : Nat) : Rat) * 20 ≤ ((daysMoods hist d).map
        (fun m => ((moodValue m.mood : Nat) : Rat))).sum := by
      have hle := List.card_nsmul_le_sum ((daysMoods hist d).map
        (fun m => ((moodValue m.mood : Nat) : Rat))) 20 ?_
      · rw [List.length_map, hn] at hle
        simpa [nsmul_eq_mul] using hle
      · intro y hy
        rcases List.mem_map.mp hy with ⟨m, _, rfl⟩
        exact_mod_cast moodValue_ge_20 m.mood
    rw [hn] at hl ⊢
    have hnpos : (0 : Rat) < (n : Rat) := by exact_mod_cast hl
    rw [le_div_iff₀ hnpos]
    linarith
  · rw [if_neg hl] at hx
    exact Option.noConfusion hx

/-- C5: the mood mapping is exactly Happy→100, Focused→80, Tired→40,
Stressed→20; the score of a day with entries is the average of the day's
mapped values; and a day plots `null` exactly when it has no mood entries —
in particular a day with zero entries is `null`, never `0`. -/
theorem moodScore_mapping :
    (moodValue Mood.Happy = 100 ∧ moodValue Mood.Focused = 80 ∧
      moodValue Mood.Tired = 40 ∧ moodValue Mood.Stressed = 20) ∧
    (∀ (hist : List MoodEntry) (d : String), daysMoods hist d ≠ [] →
      moodScoreOfDay hist d = some (((daysMoods hist d).map
        (fun m => ((moodValue m.mood : Nat) : Rat))).sum
          / ((((daysMoods hist d).length : Nat)) : Rat))) ∧
    (∀ (hist : List MoodEntry) (d : String),
      chartMoodValue hist d = none ↔ daysMoods hist d = []) := by
  refine ⟨⟨rfl, rfl, rfl, rfl⟩, ?_, ?_⟩
  · intro hist d hne
    simp only [moodScoreOfDay]
    rw [if_pos (List.length_pos.mpr hne)]
  · intro hist d
    constructor
    · intro hnone
      by_contra hne
      have hscore : moodScoreOfDay hist d = some (((daysMoods hist d).map
          (fun m => ((moodValue m.mood : Nat) : Rat))).sum
            / ((((daysMoods hist d).length : Nat)) : Rat)) := by
        simp only [moodScoreOfDay]
        rw [if_pos (List.length_pos.mpr hne)]
      have h20 := moodScoreOfDay_pos hist d _ hscore
      simp only [chartMoodValue, hscore] at hnone
      rw [if_neg (by linarith : ¬ (((daysMoods hist d).map
          (fun m => ((moodValue m.mood : Nat) : Rat))).sum
            / ((((daysMoods hist d).length : Nat)) : Rat)) = 0)] at hnone
      exact Option.noConfusion hnone
    · intro hnil
      have hnone : moodScoreOfDay hist d = none := by
        simp only [moodScoreOfDay]
        rw [if_neg (by rw [hnil]; simp)]
      simp only [chartMoodValue, hnone]

/-- Witness for C5: a day with no mood entries plots `null`. -/
theorem moodScore_mapping_witness :
    chartMoodValue [] "2026-10-12" = none :=
  (moodScore_mapping.2.2 [] "2026-10-12").mpr rfl

/-- C6: with a non-empty habit list all completed today and a most recent
mood of Stressed, the fallback's `improvement` and `encouragement` are the
100%-completion override texts, which differ from the Stressed-template
texts. -/
theorem coaching_full_completion_override (habits : List Habit)
    (moodHistory : List MoodEntry) (today : String)
    (hne : habits ≠ [])
    (hall : ∀ h ∈ habits, today ∈ h.completedDates)
    (hmood : moodHistory.head?.map (fun m => m.mood) = some Mood.Stressed) :
    (generateCoachingFallback habits moodHistory today).improvement
        = perfectImprovementText ∧
      (generateCoachingFallback habits moodHistory today).encouragement
        = perfectEncouragementText ∧
      perfectImprovementText ≠ stressedImprovementText ∧
      perfectEncouragementText ≠ stressedEncouragementText := by
  have hlen : 0 < habits.length := List.length_pos.mpr hne
  have hfilter : habits.filter (fun h => h.completedDates.contains today) = habits := by
    rw [List.filter_eq_self]
    intro h hm
    simpa using hall h hm
  have hcast : ((habits.length : Nat) : Rat) ≠ 0 := by
    exact_mod_cast hlen.ne'
  have hcond : ((if habits.length > 0 then
      (((habits.filter (fun h => h.completedDates.contains today)).length : Nat) : Rat)
        / ((habits.length : Nat) : Rat) else 0) = 1 ∧ habits.length > 0) := by
    refine ⟨?_, hlen⟩
    rw [if_pos hlen, hfilter]
    exact div_self hcast
  constructor
  · simp only [generateCoachingFallback]
    rw [if_pos hcond]
  constructor
  · simp only [generateCoachingFallback]
    rw [if_pos hcond]
  exact ⟨by decide, by decide⟩

/-- Witness for C6 at a concrete state: one habit completed today, most
recent mood Stressed. -/
theorem coaching_full_completion_override_witness :
    (generateCoachingFallback [consistencyHabit] [stressedEntry]
        "2026-10-12").improvement = perfectImprovementText ∧
      (generateCoachingFallback [consistencyHabit] [stressedEntry]
        "2026-10-12").encouragement = perfectEncouragementText ∧
      perfectImprovementText ≠ stressedImprovementText ∧
      perfectEncouragementText ≠ stressedEncouragementText :=
  coaching_full_completion_override [consistencyHabit] [stressedEntry]
    "2026-10-12" (by decide) (by decide) rfl

/-- C7: fewer than 468 keypoints make `analyzeMood` return the neutral
default Focused without computing any metric. -/
theorem analyzeMood_insufficient_keypoints (sqrtFn : Rat → JSNum)
    (keypoints : List Keypoint) (hlt : keypoints.length < 468) :
    analyzeMood sqrtFn keypoints = Mood.Focused := by
  unfold analyzeMood
  rw [if_pos hlt]

/-- Witness for C7: the empty keypoint array. -/
theorem analyzeMood_insufficient_keypoints_witness :
    analyzeMood (fun q => JSNum.num q) [] = Mood.Focused :=
  analyzeMood_insufficient_keypoints (fun q => JSNum.num q) [] (by simp)

theorem getKeypoint_degenerate (i : Nat) (hi : i < 468) :
    getKeypoint degenerateKeypoints i = some { x := 0, y := 0 } := by
  unfold getKeypoint degenerateKeypoints
  rw [List.length_replicate, if_pos hi, List.getElem?_replicate, if_pos hi]

theorem metricsOfPoints_origin :
    metricsOfPoints sqrtId { x := 0, y := 0 } { x := 0, y := 0 } { x := 0, y := 0 }
      { x := 0, y := 0 } { x := 0, y := 0 } { x := 0, y := 0 } { x := 0, y := 0 }
      { x := 0, y := 0 } { x := 0, y := 0 } { x := 0, y := 0 } { x := 0, y := 0 }
      { x := 0, y := 0 } { x := 0, y := 0 } { x := 0, y := 0 } { x := 0, y := 0 }
      = nanMetrics := by
  norm_num [metricsOfPoints, distance, sqrtId, JSNum.div, JSNum.add, nanMetrics]

theorem computeMetrics_degenerate :
    computeMetrics sqrtId degenerateKeypoints = some nanMetrics := by
  rw [computeMetrics,
    getKeypoint_degenerate 159 (by norm_num), getKeypoint_degenerate 145 (by norm_num),
    getKeypoint_degenerate 33 (by norm_num), getKeypoint_degenerate 133 (by norm_num),
    getKeypoint_degenerate 386 (by norm_num), getKeypoint_degenerate 374 (by norm_num),
    getKeypoint_degenerate 362 (by norm_num), getKeypoint_degenerate 263 (by norm_num),
    getKeypoint_degenerate 61 (by norm_num), getKeypoint_degenerate 291 (by norm_num),
    getKeypoint_degenerate 13 (by norm_num), getKeypoint_degenerate 14 (by norm_num),
    getKeypoint_degenerate 234 (by norm_num), getKeypoint_degenerate 454 (by norm_num),
    getKeypoint_degenerate 70 (by norm_num), getKeypoint_degenerate 300 (by norm_num)]
  show some (metricsOfPoints sqrtId { x := 0, y := 0 } { x := 0, y := 0 }
    { x := 0, y := 0 } { x := 0, y := 0 } { x := 0, y := 0 } { x := 0, y := 0 }
    { x := 0, y := 0 } { x := 0, y := 0 } { x := 0, y := 0 } { x := 0, y := 0 }
    { x := 0, y := 0 } { x := 0, y := 0 } { x := 0, y := 0 } { x := 0, y := 0 }
    { x := 0, y := 0 }) = some nanMetrics
  rw [metricsOfPoints_origin]

theorem classifyMetrics_nanMetrics : classifyMetrics nanMetrics = Mood.Focused := by
  norm_num [classifyMetrics, sortedScores, tiredScore, stressedScore, happyScore,
    focusedScore, JSNum.lt, JSNum.le, nanMetrics, insertScore, classifyScores]

/-- C10: for at least 468 keypoints with arbitrary finite coordinates,
`analyzeMood` always returns one of the four labels; on the fully degenerate
geometry (all landmarks coincident, every ratio `NaN`) no threshold band
matches and it falls through to Focused. -/
theorem analyzeMood_total :
    (∀ (sqrtFn : Rat → JSNum) (keypoints : List Keypoint),
        468 ≤ keypoints.length →
          (analyzeMood sqrtFn keypoints = Mood.Happy ∨
           analyzeMood sqrtFn keypoints = Mood.Stressed ∨
           analyzeMood sqrtFn keypoints = Mood.Tired ∨
           analyzeMood sqrtFn keypoints = Mood.Focused)) ∧
    analyzeMood sqrtId degenerateKeypoints = Mood.Focused := by
  constructor
  · intro sqrtFn keypoints _
    cases analyzeMood sqrtFn keypoints
    · exact Or.inl rfl
    · exact Or.inr (Or.inl rfl)
    · exact Or.inr (Or.inr (Or.inl rfl))
    · exact Or.inr (Or.inr (Or.inr rfl))
  · unfold analyzeMood
    rw [if_neg (by norm_num [degenerateKeypoints]), computeMetrics_degenerate]
    exact classifyMetrics_nanMetrics

/-- Witness for C10 at the degenerate concrete input. -/
theorem analyzeMood_total_witness :
    analyzeMood sqrtId degenerateKeypoints = Mood.Happy ∨
      analyzeMood sqrtId degenerateKeypoints = Mood.Stressed ∨
      analyzeMood sqrtId degenerateKeypoints = Mood.Tired ∨
      analyzeMood sqrtId degenerateKeypoints = Mood.Focused :=
  analyzeMood_total.1 sqrtId degenerateKeypoints (by norm_num [degenerateKeypoints])

theorem marginMetrics_scores :
    tiredScore marginMetrics = 1 ∧ stressedScore marginMetrics = 0 ∧
      happyScore marginMetrics = 2 ∧ focusedScore marginMetrics = 0 := by
  refine ⟨?_, ?_, ?_, ?_⟩
  · norm_num [tiredScore, JSNum.lt, marginMetrics]
  · norm_num [stressedScore, JSNum.lt, marginMetrics]
  · norm_num [happyScore, JSNum.lt, marginMetrics]
  · norm_num [focusedScore, JSNum.le, marginMetrics]

theorem marginMetrics_sorted :
    sortedScores marginMetrics =
      [(Mood.Happy, 2), (Mood.Tired, 1), (Mood.Stressed, 0), (Mood.Focused, 0)] := by
  have h := marginMetrics_scores
  rw [sortedScores, h.1, h.2.1, h.2.2.1, h.2.2.2]
  norm_num [insertScore]

/-- C1 counterexample: a metrics vector with top score exactly 2 and
runner-up exactly 1 for which the classifier returns the top label (Happy),
not Focused — the margin-1 rule at top = 2 accepts the top label. -/
theorem moodClassifier_margin_one_counterexample :
    (tiredScore marginMetrics = 1 ∧ stressedScore marginMetrics = 0 ∧
      happyScore marginMetrics = 2 ∧ focusedScore marginMetrics = 0) ∧
    sortedScores marginMetrics =
      [(Mood.Happy, 2), (Mood.Tired, 1), (Mood.Stressed, 0), (Mood.Focused, 0)] ∧
    classifyMetrics marginMetrics ≠ Mood.Focused := by
  refine ⟨marginMetrics_scores, marginMetrics_sorted, ?_⟩
  rw [classifyMetrics, marginMetrics_sorted]
  norm_num [classifyScores]
  decide

/-- C1 as amended: whenever the sorted scores start with a top score of
exactly 2 over a runner-up of exactly 1, the classifier accepts and returns
the top-scoring label (the `top ≥ 2` margin-1 branch), not Focused. -/
theorem moodClassifier_margin_one_accepts_top (m : Metrics)
    (top second : Mood × Nat) (rest : List (Mood × Nat))
    (hs : sortedScores m = top :: second :: rest)
    (htop : top.2 = 2) (hsecond : second.2 = 1) :
    classifyMetrics m = top.1 := by
  rw [classifyMetrics, hs]
  simp [classifyScores, htop, hsecond]

/-- Witness for the amended C1 at the concrete metrics vector. -/
theorem moodClassifier_margin_one_witness :
    classifyMetrics marginMetrics = Mood.Happy :=
  moodClassifier_margin_one_accepts_top marginMetrics (Mood.Happy, 2)
    (Mood.Tired, 1) [(Mood.Stressed, 0), (Mood.Focused, 0)]
    marginMetrics_sorted rfl rfl

end HabitCoach

